import Mathlib

/-!
Verification of the tensor lifecycle core of InferLLM
(`src/core/tensor.cpp`): dtype sizing tables, `prepare_data`
(materialize), `recall_data` (release), `set_shared_memory`
(bind_external_memory) and the destructor, embedded as pure Lean
functions over an explicit environment that records device
allocations, device frees, host staging allocations, file reads and
host-to-device copies.
-/

namespace InferLLM

/-- The logical element types of `DType` in tensor.h. -/
inductive DType
| Float32
| Float16
| Float8
| Uint8
| Int8
| Int16
| Int32
| Int4
deriving DecidableEq, Repr

/-- Modelled from the spec: `QK40`, the element count of one 4-bit quantized
block, is defined in kernel_define.h which is missing from src/; the spec's
scenario uses a 4-bit block type with block size 32. -/
def QK40 : Nat := 32

/-- Modelled from the spec: `QK80`, the element count of one 8-bit quantized
block, is defined in kernel_define.h which is missing from src/; the spec says
a fixed number of elements share one packed blob, with the same count as the
4-bit format's 32. -/
def QK80 : Nat := 32

/-- Modelled from the spec: `sizeof(BlockQ40)` from kernel_define.h (missing
from src/): one packed blob of QK40 4-bit elements (QK40/2 bytes) plus one
shared 4-byte float scale. -/
def sizeofBlockQ40 : Nat := 4 + QK40 / 2

/-- Modelled from the spec: `sizeof(BlockQ80)` from kernel_define.h (missing
from src/): one packed blob of QK80 8-bit elements (QK80 bytes) plus one
shared 4-byte float scale. -/
def sizeofBlockQ80 : Nat := 4 + QK80

/-- `inferllm::dtype_in_byte` (tensor.cpp lines 8-27): byte size of one
storage unit of the dtype. The C++ returns these values as `float`; all are
exact small integers, so `Nat` is used. -/
def dtype_in_byte : DType → Nat
| .Float32 => 4
| .Int32 => 4
| .Float16 => 2
| .Int16 => 2
| .Float8 => 1
| .Uint8 => 1
| .Int8 => sizeofBlockQ80
| .Int4 => sizeofBlockQ40

/-- `inferllm::dtype_block_size` (tensor.cpp lines 29-45): elements per
storage unit of the dtype. -/
def dtype_block_size : DType → Nat
| .Float32 => 1
| .Int32 => 1
| .Float16 => 1
| .Int16 => 1
| .Float8 => 1
| .Uint8 => 1
| .Int8 => QK80
| .Int4 => QK40

/-- Modelled from the spec: the underlying integer codes of the `DType` enum
live in tensor.h which is missing from src/; the known set is the eight
declared dtypes, numbered 0..7 in declaration order, and every other integer
value is outside the known set. -/
def decodeDType : Nat → Option DType
| 0 => some .Float32
| 1 => some .Float16
| 2 => some .Float8
| 3 => some .Uint8
| 4 => some .Int8
| 5 => some .Int16
| 6 => some .Int32
| 7 => some .Int4
| _ => none

/-- `dtype_in_byte` on a raw enum code: `none` models the fatal
`INFER_ASSERT(0, ...)` on the default branch (tensor.cpp line 25). -/
def dtypeInByteRaw (code : Nat) : Option Nat :=
  (decodeDType code).map dtype_in_byte

/-- `dtype_block_size` on a raw enum code: `none` models the fatal
`INFER_ASSERT(0, ...)` on the default branch (tensor.cpp line 43). -/
def dtypeBlockSizeRaw (code : Nat) : Option Nat :=
  (decodeDType code).map dtype_block_size

/-- Modelled from the spec: the byte size of exactly one storage block of a
dtype — one element's bytes for the dense types, and for the block-quantized
types the fixed-size packed blob plus its shared 4-byte scale. Stated
independently of `dtype_in_byte` so that the sizing table can be checked
against it. -/
def blockByteSize : DType → Nat
| .Float32 => 4
| .Int32 => 4
| .Float16 => 2
| .Int16 => 2
| .Float8 => 1
| .Uint8 => 1
| .Int8 => 4 + QK80
| .Int4 => 4 + QK40 / 2

/-- The dense (non-block-quantized) dtypes. -/
def DType.isDense : DType → Bool
| .Float32 => true
| .Int32 => true
| .Float16 => true
| .Int16 => true
| .Float8 => true
| .Uint8 => true
| .Int8 => false
| .Int4 => false

/-- `TensorState` from tensor.h: `OutSide` (no materialized handle) or `Own`
(handle materialized). -/
inductive TensorState
| OutSide
| Own
deriving DecidableEq, Repr

/-- The device kinds distinguished by tensor.cpp: `m_device->type()` is
compared against `KernelType::GPU`; every other kind takes the host path. -/
inductive KernelType
| CPU
| GPU
deriving DecidableEq, Repr

/-- Raw pointer values, tagged by their provenance so that frees can be
checked against what was allocated: device allocations, file-owned mmap
views, externally supplied memory, host staging buffers from `new float[]`,
each with an identifying number. -/
inductive Ptr
| dev (n : Nat)
| mmapPtr (n : Nat)
| ext (n : Nat)
| hostBuf (n : Nat)
deriving DecidableEq, Repr

/-- The file backing (`m_file`), reduced to the one capability tensor.cpp
queries: `enable_mmap()`. Reads and mappings are recorded in the
environment. -/
structure FileHandle where
  enable_mmap : Bool
deriving DecidableEq, Repr

/-- A tensor as tensor.cpp manipulates it: the data handle, lifecycle state,
shared flag, optional file backing with byte offset, device kind, dtype and
element count (from which `length_in_byte()` derives). -/
structure Tensor where
  m_data : Option Ptr
  m_state : TensorState
  m_shared : Bool
  m_file : Option FileHandle
  m_file_offset : Nat
  m_device : KernelType
  m_dtype : DType
  elemCount : Nat
deriving DecidableEq, Repr

/-- Modelled from the spec: `length_in_byte()` is declared in tensor.h which
is missing from src/; the spec gives total buffer length =
ceil(element_count / N) * block_byte_size, with N = 1 for dense types. -/
def Tensor.length_in_byte (t : Tensor) : Nat :=
  ((t.elemCount + dtype_block_size t.m_dtype - 1) / dtype_block_size t.m_dtype)
    * dtype_in_byte t.m_dtype

/-- The environment a tensor operation acts on: the device allocator
(fresh-pointer counter, allocation and free counters, live set, ordered log
of freed pointers, double-free flag), the host `new[]`/`delete[]` heap
(counters and the byte sizes of staging allocations, in order), and logs of
file reads (length, offset), mmap requests (length, offset), byte lengths of
host-to-device copies, and printf error messages. -/
structure Env where
  nextPtr : Nat
  allocCount : Nat
  freeCount : Nat
  allocSizes : List Nat
  live : List Ptr
  freedLog : List Ptr
  doubleFree : Bool
  nextHost : Nat
  hostAllocCount : Nat
  hostFreeCount : Nat
  hostAllocSizes : List Nat
  readLog : List (Nat × Nat)
  mmapLog : List (Nat × Nat)
  copyLog : List Nat
  errLogCount : Nat
deriving DecidableEq, Repr

/-- The pristine environment. -/
def Env.init : Env :=
  ⟨0, 0, 0, [], [], [], false, 0, 0, 0, [], [], [], [], 0⟩

/-- `m_device->allocate(length)`: returns a fresh device pointer and records
the allocation. -/
def Env.allocate (env : Env) (length : Nat) : Ptr × Env :=
  (Ptr.dev env.nextPtr,
   { env with
      nextPtr := env.nextPtr + 1
      allocCount := env.allocCount + 1
      allocSizes := env.allocSizes ++ [length]
      live := Ptr.dev env.nextPtr :: env.live })

/-- `m_device->free_device(ptr)`: records the free; freeing a pointer that is
not live (never allocated, or already freed) sets the double-free flag. -/
def Env.free_device (env : Env) (p : Ptr) : Env :=
  { env with
      freeCount := env.freeCount + 1
      freedLog := env.freedLog ++ [p]
      doubleFree := env.doubleFree || !(env.live.contains p)
      live := env.live.erase p }

/-- `m_file->get_mmap_data(length, offset)`: a zero-copy host view owned by
the file, identified by its offset; the request is logged. -/
def Env.get_mmap_data (env : Env) (length offset : Nat) : Ptr × Env :=
  (Ptr.mmapPtr offset, { env with mmapLog := env.mmapLog ++ [(length, offset)] })

/-- `m_file->read_data(dst, length, offset)`: a blocking read of `length`
bytes at `offset`, recorded in the read log. -/
def Env.read_data (env : Env) (length offset : Nat) : Env :=
  { env with readLog := env.readLog ++ [(length, offset)] }

/-- `new float[n]`: allocates a host staging buffer of `n` floats, i.e.
`4 * n` bytes, and records its byte size. -/
def Env.newFloatArray (env : Env) (n : Nat) : Ptr × Env :=
  (Ptr.hostBuf env.nextHost,
   { env with
      nextHost := env.nextHost + 1
      hostAllocCount := env.hostAllocCount + 1
      hostAllocSizes := env.hostAllocSizes ++ [4 * n] })

/-- `delete[] ptr` on a host staging buffer. -/
def Env.deleteArray (env : Env) : Env :=
  { env with hostFreeCount := env.hostFreeCount + 1 }

/-- `cudaMemcpy(dst, src, length, ...)`: records the byte length of the
host-to-device copy. Success or failure of the copy engine is supplied by
the `copyOk` parameter of the caller. -/
def Env.cudaMemcpy (env : Env) (length : Nat) : Env :=
  { env with copyLog := env.copyLog ++ [length] }

/-- `printf("CUDA Memcpy Error: ...")`: records one logged error message. -/
def Env.logError (env : Env) : Env :=
  { env with errLogCount := env.errLogCount + 1 }

/-- `Tensor::prepare_data` (tensor.cpp lines 47-84), the materialize
operation. `copyOk` models the `cudaError_t` returned by the device copy
engine: `false` means the copy failed. Returns the returned `TensorState`,
the updated tensor and the updated environment. -/
def prepare_data (t : Tensor) (env : Env) (copyOk : Bool) :
    TensorState × Tensor × Env :=
  let length := t.length_in_byte
  let (t, env) :=
    if t.m_data = none ∧ t.m_state = TensorState.OutSide then
      match t.m_file with
      | some f =>
        if f.enable_mmap then
          if t.m_device = KernelType.GPU then
            let (temp_ptr, env) := env.get_mmap_data length t.m_file_offset
            let (p, env) := env.allocate length
            let env := env.cudaMemcpy length
            let _ := temp_ptr
            let env := if copyOk then env else env.logError
            ({ t with m_data := some p }, env)
          else
            let (p, env) := env.get_mmap_data length t.m_file_offset
            ({ t with m_data := some p }, env)
        else if t.m_data = none then
          if t.m_device = KernelType.GPU then
            let (p, env) := env.allocate length
            let (temp_ptr, env) := env.newFloatArray length
            let env := env.read_data length t.m_file_offset
            let env := env.cudaMemcpy length
            let _ := temp_ptr
            let env := env.deleteArray
            ({ t with m_data := some p }, env)
          else
            let (p, env) := env.allocate length
            let env := env.read_data length t.m_file_offset
            ({ t with m_data := some p }, env)
        else
          (t, env)
      | none =>
        let (p, env) := env.allocate length
        ({ t with m_data := some p }, env)
    else
      (t, env)
  (TensorState.Own, { t with m_state := TensorState.Own }, env)

/-- `Tensor::recall_data` (tensor.cpp lines 85-96), the release operation:
shared tensors return their current state untouched; otherwise a non-file,
non-null, owned handle is freed and nulled, and the state becomes
`OutSide`. -/
def recall_data (t : Tensor) (env : Env) : TensorState × Tensor × Env :=
  if t.m_shared then
    (t.m_state, t, env)
  else
    let (t, env) :=
      if t.m_file = none ∧ t.m_data ≠ none ∧ t.m_state = TensorState.Own then
        match t.m_data with
        | some p => ({ t with m_data := none }, env.free_device p)
        | none => (t, env)
      else
        (t, env)
    (TensorState.OutSide, { t with m_state := TensorState.OutSide }, env)

/-- `Tensor::set_shared_memory` (tensor.cpp lines 98-105), the
bind_external_memory operation: `none` models the fatal `INFER_ASSERT` when
`data` is non-null and `size` is under `length_in_byte()`; otherwise the
handle is taken, the state becomes `Own` and the tensor becomes shared. -/
def set_shared_memory (t : Tensor) (data : Option Ptr) (size : Nat) :
    Option Tensor :=
  if data = none ∨ size ≥ t.length_in_byte then
    some { t with m_data := data, m_state := TensorState.Own, m_shared := true }
  else
    none

/-- `Tensor::~Tensor` (tensor.cpp lines 107-115): runs `recall_data` when the
state is `Own`, then — independent of the shared flag — frees `m_data` when
there is file backing without mmap support and the handle is non-null. -/
def destructor (t : Tensor) (env : Env) : Env :=
  let (t, env) :=
    if t.m_state = TensorState.Own then
      let (_, t, env) := recall_data t env
      (t, env)
    else
      (t, env)
  match t.m_file, t.m_data with
  | some f, some p => if f.enable_mmap then env else env.free_device p
  | _, _ => env

/-- One external call on a tensor: a materialize (with the given copy-engine
outcome) or a release. -/
inductive TensorOp
| materialize (copyOk : Bool)
| release
deriving DecidableEq, Repr

/-- Run one operation, keeping the tensor and environment. -/
def runOp (s : Tensor × Env) (op : TensorOp) : Tensor × Env :=
  match op with
  | .materialize copyOk =>
    let (_, t, env) := prepare_data s.1 s.2 copyOk
    (t, env)
  | .release =>
    let (_, t, env) := recall_data s.1 s.2
    (t, env)

/-- Run a sequence of materialize/release operations. -/
def runOps (ops : List TensorOp) (s : Tensor × Env) : Tensor × Env :=
  ops.foldl runOp s

/-- A file-backed, mmap-capable tensor of ten 32-bit floats on the GPU
device (the leak scenario of the mmap-to-accelerator path). -/
def tMmapGpu : Tensor :=
  ⟨none, .OutSide, false, some ⟨true⟩, 0, .GPU, .Float32, 10⟩

/-- A file-backed, mmap-capable tensor of ten 32-bit floats on the host
device (the zero-copy mmap passthrough scenario). -/
def tMmapCpu : Tensor :=
  ⟨none, .OutSide, false, some ⟨true⟩, 0, .CPU, .Float32, 10⟩

/-- A file-backed tensor without mmap support on the GPU device, two 32-bit
floats, so `length_in_byte() = 8` (the staging-buffer scenario). -/
def tNoMmapGpu : Tensor :=
  ⟨none, .OutSide, false, some ⟨false⟩, 0, .GPU, .Float32, 2⟩

/-- A file-backed tensor without mmap support on the GPU device, ten 32-bit
floats, that gets external memory bound to it (the shared-destructor
scenario). -/
def tNoMmapShared : Tensor :=
  ⟨none, .OutSide, false, some ⟨false⟩, 0, .GPU, .Float32, 10⟩

/-- A plain tensor: no file backing, not shared, ten 32-bit floats on the
host device, so `length_in_byte() = 40`. -/
def tPlain : Tensor :=
  ⟨none, .OutSide, false, none, 0, .CPU, .Float32, 10⟩

/-- An environment with its printf error log cleared, to state that two runs
agree in everything but what they logged. -/
def stripErrLog (env : Env) : Env :=
  { env with errLogCount := 0 }

/-- The tensor produced by `set_shared_memory(nullptr, size)`: data null,
state `Own`, shared. -/
def boundNull (t : Tensor) : Tensor :=
  { t with m_data := none, m_state := TensorState.Own, m_shared := true }

/-- `tNoMmapShared` after external memory `ext 5` of 40 bytes was bound to
it: the result of `set_shared_memory(ext 5, 40)`. -/
def tBound : Tensor :=
  ⟨some (Ptr.ext 5), TensorState.Own, true, some ⟨false⟩, 0, .GPU, .Float32, 10⟩

/-! ### Helper lemmas about the four operations -/

theorem withStateOwn_eq_self (t : Tensor) (h : t.m_state = TensorState.Own) :
    { t with m_state := TensorState.Own } = t := by
  cases t
  simp_all

theorem prepare_data_noop (t : Tensor) (env : Env) (ok : Bool)
    (h : ¬(t.m_data = none ∧ t.m_state = TensorState.OutSide)) :
    prepare_data t env ok =
      (TensorState.Own, { t with m_state := TensorState.Own }, env) := by
  simp only [prepare_data, if_neg h]

theorem prepare_data_fresh_nofile (t : Tensor) (env : Env) (ok : Bool)
    (hd : t.m_data = none) (hst : t.m_state = TensorState.OutSide)
    (hf : t.m_file = none) :
    prepare_data t env ok =
      (TensorState.Own,
       { t with m_data := some (Ptr.dev env.nextPtr),
                m_state := TensorState.Own },
       (env.allocate t.length_in_byte).2) := by
  simp only [prepare_data, hd, hst, hf, and_self, if_true, Env.allocate]

theorem recall_data_shared (t : Tensor) (env : Env) (h : t.m_shared = true) :
    recall_data t env = (t.m_state, t, env) := by
  simp only [recall_data, h, if_true]

theorem recall_data_free (t : Tensor) (env : Env) (p : Ptr)
    (hsh : t.m_shared = false) (hf : t.m_file = none)
    (hd : t.m_data = some p) (hst : t.m_state = TensorState.Own) :
    recall_data t env =
      (TensorState.OutSide,
       { t with m_data := none, m_state := TensorState.OutSide },
       env.free_device p) := by
  simp only [recall_data, hsh, hf, hd, hst, Bool.false_eq_true, if_false,
    ne_eq, reduceCtorEq, not_false_eq_true, and_self, if_true,
    Option.some.injEq, reduceIte]

theorem recall_data_nofree (t : Tensor) (env : Env)
    (hsh : t.m_shared = false)
    (h : ¬(t.m_file = none ∧ t.m_data ≠ none ∧ t.m_state = TensorState.Own)) :
    recall_data t env =
      (TensorState.OutSide, { t with m_state := TensorState.OutSide }, env) := by
  simp only [recall_data, hsh, Bool.false_eq_true, if_false, if_neg h]

theorem prepare_data_frame (t : Tensor) (env : Env) (ok : Bool) :
    (prepare_data t env ok).2.1.m_shared = t.m_shared ∧
    (prepare_data t env ok).2.1.m_file = t.m_file ∧
    (prepare_data t env ok).2.1.m_state = TensorState.Own ∧
    (prepare_data t env ok).1 = TensorState.Own := by
  unfold prepare_data
  rcases hmf : t.m_file with _ | f <;>
    by_cases hc : t.m_data = none ∧ t.m_state = TensorState.OutSide <;>
    simp [hc, hmf, Env.allocate, Env.get_mmap_data, Env.cudaMemcpy,
      Env.newFloatArray, Env.read_data, Env.deleteArray, Env.logError] <;>
    split_ifs <;>
    simp_all

theorem recall_data_frame (t : Tensor) (env : Env) :
    (recall_data t env).2.1.m_shared = t.m_shared ∧
    (recall_data t env).2.1.m_file = t.m_file := by
  unfold recall_data
  by_cases hsh : t.m_shared = true <;>
    rcases hd : t.m_data with _ | p <;>
    simp [hsh, hd, Env.free_device] <;>
    split_ifs <;>
    simp_all

theorem runOp_inv (s : Tensor × Env) (op : TensorOp)
    (hsh : s.1.m_shared = false) (hf : s.1.m_file = none)
    (hinv : s.1.m_state = TensorState.OutSide → s.1.m_data = none) :
    (runOp s op).1.m_shared = false ∧ (runOp s op).1.m_file = none ∧
    ((runOp s op).1.m_state = TensorState.OutSide →
      (runOp s op).1.m_data = none) := by
  cases op with
  | materialize ok =>
    obtain ⟨h1, h2, h3, _⟩ := prepare_data_frame s.1 s.2 ok
    refine ⟨by simpa [runOp, h1] using hsh, by simpa [runOp, h2] using hf, ?_⟩
    intro h
    rw [runOp] at h
    rw [h3] at h
    exact absurd h (by simp)
  | release =>
    by_cases hmat : s.1.m_data ≠ none ∧ s.1.m_state = TensorState.Own
    · obtain ⟨hdp, hso⟩ := hmat
      obtain ⟨p, hp⟩ := Option.ne_none_iff_exists'.mp hdp
      rw [runOp, recall_data_free s.1 s.2 p hsh hf hp hso]
      simp [hsh, hf]
    · rw [runOp, recall_data_nofree s.1 s.2 hsh (by tauto)]
      refine ⟨hsh, hf, ?_⟩
      intro _
      push_neg at hmat
      by_cases hdn : s.1.m_data = none
      · exact hdn
      · have := hmat hdn
        cases hms : s.1.m_state with
        | OutSide => exact hinv hms
        | Own => exact absurd hms this

theorem runOps_inv (ops : List TensorOp) (s : Tensor × Env)
    (hsh : s.1.m_shared = false) (hf : s.1.m_file = none)
    (hinv : s.1.m_state = TensorState.OutSide → s.1.m_data = none) :
    (runOps ops s).1.m_shared = false ∧ (runOps ops s).1.m_file = none ∧
    ((runOps ops s).1.m_state = TensorState.OutSide →
      (runOps ops s).1.m_data = none) := by
  induction ops generalizing s with
  | nil => exact ⟨hsh, hf, hinv⟩
  | cons op ops ih =>
    obtain ⟨h1, h2, h3⟩ := runOp_inv s op hsh hf hinv
    simpa [runOps] using ih (runOp s op) h1 h2 h3

theorem runOp_fixed (t : Tensor) (env : Env) (op : TensorOp)
    (hsh : t.m_shared = true) (hst : t.m_state = TensorState.Own) :
    runOp (t, env) op = (t, env) := by
  cases op with
  | materialize ok =>
    rw [runOp, prepare_data_noop t env ok (by simp [hst])]
    simp [withStateOwn_eq_self t hst]
  | release =>
    rw [runOp, recall_data_shared t env hsh]

theorem runOps_fixed (ops : List TensorOp) (t : Tensor) (env : Env)
    (hsh : t.m_shared = true) (hst : t.m_state = TensorState.Own) :
    runOps ops (t, env) = (t, env) := by
  induction ops with
  | nil => rfl
  | cons op ops ih =>
    rw [runOps, List.foldl_cons, runOp_fixed t env op hsh hst]
    simpa [runOps] using ih

/-! ### Claim theorems -/

/-- C1: the claim states that on the file-backed, mmap-capable,
accelerator-device path, the accelerator buffer freshly allocated by
materialize() is freed exactly once by the time destruction completes. The
code violates this: for the concrete tensor `tMmapGpu`, materialize
allocates device pointer `dev 0`, yet destruction performs zero device
frees — `recall_data` skips the free because a file backing is present, and
the destructor's extra free requires `enable_mmap()` to be false — so the
buffer stays live (a leak). -/
theorem c1_mmap_gpu_destruction_leaks :
    (prepare_data tMmapGpu Env.init true).2.1.m_data = some (Ptr.dev 0) ∧
    (prepare_data tMmapGpu Env.init true).2.2.allocCount = 1 ∧
    (destructor (prepare_data tMmapGpu Env.init true).2.1
        (prepare_data tMmapGpu Env.init true).2.2).freeCount = 0 ∧
    (destructor (prepare_data tMmapGpu Env.init true).2.1
        (prepare_data tMmapGpu Env.init true).2.2).live = [Ptr.dev 0] := by
  decide

/-- C2 counterexample: the claim states that `state == OutSide` implies
`data == null` for every non-shared tensor, and in particular that release()
on a non-shared file-backed tensor leaves data null. For the concrete
file-backed, mmap-capable host tensor `tMmapCpu`, materialize() followed by
release() ends with state `OutSide` while data is still the mapped pointer,
refuting the claim as stated. -/
theorem c2_counterexample :
    (runOps [TensorOp.materialize true, TensorOp.release]
        (tMmapCpu, Env.init)).1.m_shared = false ∧
    (runOps [TensorOp.materialize true, TensorOp.release]
        (tMmapCpu, Env.init)).1.m_state = TensorState.OutSide ∧
    (runOps [TensorOp.materialize true, TensorOp.release]
        (tMmapCpu, Env.init)).1.m_data = some (Ptr.mmapPtr 0) := by
  decide

/-- C2 amended: for every non-shared, non-file tensor, after every sequence
of materialize()/release() operations the invariant `state == OutSide ⇒
data == null` holds; release() on a non-shared file-backed tensor sets
state to `OutSide` but leaves the data handle unchanged (and frees
nothing), so such a tensor may hold a non-null handle while `OutSide`. -/
theorem c2_outside_implies_null (t : Tensor) (env : Env)
    (ops : List TensorOp)
    (hsh : t.m_shared = false) (hf : t.m_file = none)
    (hinv : t.m_state = TensorState.OutSide → t.m_data = none) :
    ((runOps ops (t, env)).1.m_state = TensorState.OutSide →
      (runOps ops (t, env)).1.m_data = none) ∧
    (∀ u : Tensor, ∀ e : Env, u.m_shared = false → u.m_file ≠ none →
      (recall_data u e).2.1.m_state = TensorState.OutSide ∧
      (recall_data u e).2.1.m_data = u.m_data ∧
      (recall_data u e).2.2 = e) := by
  constructor
  · exact (runOps_inv ops (t, env) hsh hf hinv).2.2
  · intro u e hu hfu
    rw [recall_data_nofree u e hu (by tauto)]
    exact ⟨rfl, rfl, rfl⟩

/-- C2 witness: the amended invariant evaluated on a concrete run. -/
theorem c2_outside_implies_null_witness :
    (runOps [TensorOp.materialize true, TensorOp.release]
        (tPlain, Env.init)).1.m_data = none := by
  have h := c2_outside_implies_null tPlain Env.init
      [TensorOp.materialize true, TensorOp.release] rfl rfl (fun _ => rfl)
  exact h.1 (by decide)

/-- C3: materialize() is a no-op (no allocation, no file read, no copy: the
environment is returned untouched and only the state field moves to `Own`)
whenever data is already non-null or the state is already not `OutSide`;
and a second materialize() right after a first one changes neither the data
handle nor the environment. -/
theorem c3_materialize_idempotent (t : Tensor) (env : Env) (ok1 ok2 : Bool) :
    ((t.m_data ≠ none ∨ t.m_state ≠ TensorState.OutSide) →
      prepare_data t env ok1 =
        (TensorState.Own, { t with m_state := TensorState.Own }, env)) ∧
    prepare_data (prepare_data t env ok1).2.1 (prepare_data t env ok1).2.2
        ok2 =
      (TensorState.Own, (prepare_data t env ok1).2.1,
        (prepare_data t env ok1).2.2) := by
  constructor
  · intro h
    exact prepare_data_noop t env ok1 (by tauto)
  · have hst := (prepare_data_frame t env ok1).2.2.1
    rw [prepare_data_noop _ _ ok2 (by simp [hst]),
      withStateOwn_eq_self _ hst]

/-- C3 witness: the no-op case evaluated on a tensor that already holds
data. -/
theorem c3_materialize_idempotent_witness :
    prepare_data tBound Env.init true =
      (TensorState.Own, { tBound with m_state := TensorState.Own },
        Env.init) := by
  exact (c3_materialize_idempotent tBound Env.init true true).1 (by decide)

/-- C4: the claim states that after bind_external_memory(p, s) the device
free is never invoked on p, including when the tensor also has file
backing. The code violates this: for the concrete file-backed,
mmap-incapable tensor `tNoMmapShared`, binding `ext 5` with 40 bytes
succeeds (yielding `tBound`), release() frees nothing, but the destructor
— whose file-cleanup branch never checks the shared flag — calls the
device free on `ext 5`. -/
theorem c4_destructor_frees_external :
    set_shared_memory tNoMmapShared (some (Ptr.ext 5)) 40 = some tBound ∧
    (recall_data tBound Env.init).2.2.freeCount = 0 ∧
    (destructor tBound Env.init).freedLog = [Ptr.ext 5] ∧
    (destructor tBound Env.init).freeCount = 1 := by
  decide

/-- C5: bind_external_memory(ptr, size) fails with the fatal assertion iff
ptr is non-null and size is below `length_in_byte()`; otherwise it sets
data to ptr, state to `Own` and the shared flag; and for the concrete
32-bit-float tensor of 10 elements (`tPlain`, 40 bytes), binding with size
40 succeeds while size 39 dies on the assertion. -/
theorem c5_bind_external_contract (t : Tensor) (p : Option Ptr)
    (size : Nat) :
    (set_shared_memory t p size = none ↔
      p ≠ none ∧ size < t.length_in_byte) ∧
    (set_shared_memory t p size = none ∨
      set_shared_memory t p size =
        some { t with m_data := p, m_state := TensorState.Own,
                      m_shared := true }) ∧
    tPlain.length_in_byte = 40 ∧
    set_shared_memory tPlain (some (Ptr.ext 1)) 40 =
      some { tPlain with m_data := some (Ptr.ext 1),
                         m_state := TensorState.Own, m_shared := true } ∧
    set_shared_memory tPlain (some (Ptr.ext 1)) 39 = none := by
  refine ⟨?_, ?_, by decide, by decide, by decide⟩
  · unfold set_shared_memory
    split_ifs with h
    · simp only [reduceCtorEq, false_iff]
      intro hcon
      rcases h with h | h
      · exact absurd h hcon.1
      · omega
    · push_neg at h
      simp only [true_iff]
      exact ⟨h.1, by omega⟩
  · unfold set_shared_memory
    split_ifs <;> simp

/-- C5 witness: the failing branch of the contract at the concrete
39-byte binding. -/
theorem c5_bind_external_contract_witness :
    (some (Ptr.ext 1) ≠ (none : Option Ptr) ∧ 39 < tPlain.length_in_byte) ∧
    set_shared_memory tPlain (some (Ptr.ext 1)) 39 = none := by
  have h := c5_bind_external_contract tPlain (some (Ptr.ext 1)) 39
  exact ⟨by decide, h.1.mpr (by decide)⟩

/-- C9 counterexample: the claim states that byte_size(dtype) *
block_count(dtype) equals the byte size of exactly one block for every
dtype; for the 4-bit quantized dtype the product is 20 * 32, not the 20
bytes of one block. -/
theorem c9_counterexample :
    ¬ (dtype_in_byte DType.Int4 * dtype_block_size DType.Int4 =
        blockByteSize DType.Int4) := by
  decide

/-- C9 amended: byte_size(dtype) alone equals the byte size of exactly one
block for every dtype (the product byte_size * block_count equals one
block's bytes exactly for the dense dtypes, whose block_count is 1), every
dense dtype has block_count 1, and both sizing functions hit the fatal
assertion on every enum value outside the known set. -/
theorem c9_sizing_table :
    (∀ d : DType, dtype_in_byte d = blockByteSize d) ∧
    (∀ d : DType, dtype_block_size d = 1 ↔ d.isDense = true) ∧
    (∀ d : DType,
      dtype_in_byte d * dtype_block_size d = blockByteSize d ↔
        dtype_block_size d = 1) ∧
    (∀ c : Nat,
      dtypeInByteRaw (c + 8) = none ∧ dtypeBlockSizeRaw (c + 8) = none) := by
  refine ⟨?_, ?_, ?_, ?_⟩
  · intro d; cases d <;> rfl
  · intro d; cases d <;> decide
  · intro d; cases d <;> decide
  · intro c; exact ⟨rfl, rfl⟩

/-- C6: on a fresh non-shared, non-file tensor, materialize() allocates one
device buffer; release() frees exactly that buffer (no double free) and
nulls the data; a second materialize() allocates a fresh, distinct handle,
for a total of two allocations and one free across the two cycles; and
release() on such a tensor with no materialized data frees nothing. -/
theorem c6_round_trip (t : Tensor) (env : Env) (ok1 ok2 : Bool)
    (hsh : t.m_shared = false) (hf : t.m_file = none)
    (hd : t.m_data = none) (hst : t.m_state = TensorState.OutSide) :
    (runOps [TensorOp.materialize ok1] (t, env)).1.m_data =
      some (Ptr.dev env.nextPtr) ∧
    (runOps [TensorOp.materialize ok1] (t, env)).2.allocCount =
      env.allocCount + 1 ∧
    (runOps [TensorOp.materialize ok1, TensorOp.release]
        (t, env)).1.m_data = none ∧
    (runOps [TensorOp.materialize ok1, TensorOp.release]
        (t, env)).2.freeCount = env.freeCount + 1 ∧
    (runOps [TensorOp.materialize ok1, TensorOp.release]
        (t, env)).2.freedLog = env.freedLog ++ [Ptr.dev env.nextPtr] ∧
    (runOps [TensorOp.materialize ok1, TensorOp.release]
        (t, env)).2.doubleFree = env.doubleFree ∧
    (runOps [TensorOp.materialize ok1, TensorOp.release,
        TensorOp.materialize ok2] (t, env)).1.m_data =
      some (Ptr.dev (env.nextPtr + 1)) ∧
    Ptr.dev (env.nextPtr + 1) ≠ Ptr.dev env.nextPtr ∧
    (runOps [TensorOp.materialize ok1, TensorOp.release,
        TensorOp.materialize ok2] (t, env)).2.allocCount =
      env.allocCount + 2 ∧
    (runOps [TensorOp.materialize ok1, TensorOp.release,
        TensorOp.materialize ok2] (t, env)).2.freeCount =
      env.freeCount + 1 ∧
    recall_data t env =
      (TensorState.OutSide, { t with m_state := TensorState.OutSide },
        env) := by
  have h1 := prepare_data_fresh_nofile t env ok1 hd hst hf
  have e1 : runOps [TensorOp.materialize ok1] (t, env) =
      (⟨some (Ptr.dev env.nextPtr), TensorState.Own, t.m_shared, t.m_file,
        t.m_file_offset, t.m_device, t.m_dtype, t.elemCount⟩,
       (env.allocate t.length_in_byte).2) := by
    simp [runOps, runOp, h1]
  have h2 := recall_data_free
      (⟨some (Ptr.dev env.nextPtr), TensorState.Own, t.m_shared, t.m_file,
        t.m_file_offset, t.m_device, t.m_dtype, t.elemCount⟩ : Tensor)
      ((env.allocate t.length_in_byte).2) (Ptr.dev env.nextPtr)
      hsh hf rfl rfl
  have e2 : runOps [TensorOp.materialize ok1, TensorOp.release] (t, env) =
      (⟨none, TensorState.OutSide, t.m_shared, t.m_file,
        t.m_file_offset, t.m_device, t.m_dtype, t.elemCount⟩,
       ((env.allocate t.length_in_byte).2).free_device
         (Ptr.dev env.nextPtr)) := by
    have hstep : runOps [TensorOp.materialize ok1, TensorOp.release]
        (t, env) =
        runOp (runOps [TensorOp.materialize ok1] (t, env))
          TensorOp.release := rfl
    rw [hstep, e1]
    simp [runOp, h2]
  have h3 := prepare_data_fresh_nofile
      (⟨none, TensorState.OutSide, t.m_shared, t.m_file,
        t.m_file_offset, t.m_device, t.m_dtype, t.elemCount⟩ : Tensor)
      (((env.allocate t.length_in_byte).2).free_device
        (Ptr.dev env.nextPtr)) ok2 rfl rfl hf
  have e3 : runOps [TensorOp.materialize ok1, TensorOp.release,
      TensorOp.materialize ok2] (t, env) =
      (⟨some (Ptr.dev (env.nextPtr + 1)), TensorState.Own, t.m_shared,
        t.m_file, t.m_file_offset, t.m_device, t.m_dtype, t.elemCount⟩,
       ((((env.allocate t.length_in_byte).2).free_device
           (Ptr.dev env.nextPtr)).allocate
         (Tensor.length_in_byte
           (⟨none, TensorState.OutSide, t.m_shared, t.m_file,
             t.m_file_offset, t.m_device, t.m_dtype,
             t.elemCount⟩ : Tensor))).2) := by
    have hstep : runOps [TensorOp.materialize ok1, TensorOp.release,
        TensorOp.materialize ok2] (t, env) =
        runOp (runOps [TensorOp.materialize ok1, TensorOp.release] (t, env))
          (TensorOp.materialize ok2) := rfl
    rw [hstep, e2]
    simp only [runOp]
    rw [h3]
    simp [Env.allocate, Env.free_device]
  refine ⟨by rw [e1], by simp [e1, Env.allocate], by rw [e2],
    by simp [e2, Env.allocate, Env.free_device],
    by simp [e2, Env.allocate, Env.free_device],
    by simp [e2, Env.allocate, Env.free_device],
    by rw [e3], by simp,
    by simp [e3, Env.allocate, Env.free_device],
    by simp [e3, Env.allocate, Env.free_device],
    ?_⟩
  exact recall_data_nofree t env hsh (by simp [hd])

/-- C6 witness: the round trip evaluated on the concrete plain tensor. -/
theorem c6_round_trip_witness :
    (runOps [TensorOp.materialize true, TensorOp.release,
        TensorOp.materialize true] (tPlain, Env.init)).2.allocCount =
      Env.init.allocCount + 2 ∧
    (runOps [TensorOp.materialize true, TensorOp.release,
        TensorOp.materialize true] (tPlain, Env.init)).2.freeCount =
      Env.init.freeCount + 1 := by
  have h := c6_round_trip tPlain Env.init true true rfl rfl rfl rfl
  exact ⟨h.2.2.2.2.2.2.2.2.1, h.2.2.2.2.2.2.2.2.2.1⟩

/-- C7: materialize() always returns `Own`, even when the device copy
engine fails: it never frees anything, the resulting tensor is identical to
the one a successful copy produces, and the environments of a failed and a
successful run agree in everything except the printf error log; no error
status reaches the caller. -/
theorem c7_copy_failure_only_logged (t : Tensor) (env : Env) (ok : Bool) :
    (prepare_data t env ok).1 = TensorState.Own ∧
    (prepare_data t env ok).2.1.m_state = TensorState.Own ∧
    (prepare_data t env ok).2.2.freeCount = env.freeCount ∧
    (prepare_data t env ok).2.2.freedLog = env.freedLog ∧
    (prepare_data t env ok).2.1 = (prepare_data t env true).2.1 ∧
    stripErrLog (prepare_data t env ok).2.2 =
      stripErrLog (prepare_data t env true).2.2 := by
  unfold prepare_data stripErrLog
  rcases hmf : t.m_file with _ | f <;>
    by_cases hc : t.m_data = none ∧ t.m_state = TensorState.OutSide <;>
    cases ok <;>
    simp [hc, hmf, Env.allocate, Env.get_mmap_data, Env.cudaMemcpy,
      Env.newFloatArray, Env.read_data, Env.deleteArray, Env.logError] <;>
    split_ifs <;>
    simp_all [Env.allocate, Env.get_mmap_data, Env.cudaMemcpy,
      Env.newFloatArray, Env.read_data, Env.deleteArray, Env.logError]

/-- C8 counterexample: the claim states the staging buffer on the
accelerator, mapping-unsupported path holds exactly `length_in_byte()`
bytes; for the concrete tensor `tNoMmapGpu` with `length_in_byte() = 8`,
`new float[length]` allocates a 32-byte staging buffer. -/
theorem c8_counterexample :
    tNoMmapGpu.length_in_byte = 8 ∧
    (prepare_data tNoMmapGpu Env.init true).2.2.hostAllocSizes = [32] ∧
    (prepare_data tNoMmapGpu Env.init true).2.2.hostAllocSizes ≠
      [tNoMmapGpu.length_in_byte] := by
  decide

/-- C8 amended: on the accelerator-kind, mapping-unsupported materialize
path, the tensor allocates one temporary host staging buffer of
`length_in_byte()` float elements — `4 * length_in_byte()` bytes, not
`length_in_byte()` bytes — reads `length_in_byte()` bytes from the file at
`file_offset` into it, copies `length_in_byte()` bytes from staging to the
freshly allocated accelerator buffer, and releases the staging buffer on
every exit of that path. -/
theorem c8_staging_buffer (t : Tensor) (env : Env) (ok : Bool)
    (f : FileHandle) (hf : t.m_file = some f) (hmm : f.enable_mmap = false)
    (hdev : t.m_device = KernelType.GPU)
    (hd : t.m_data = none) (hst : t.m_state = TensorState.OutSide) :
    (prepare_data t env ok).2.2.hostAllocSizes =
      env.hostAllocSizes ++ [4 * t.length_in_byte] ∧
    (prepare_data t env ok).2.2.hostAllocCount = env.hostAllocCount + 1 ∧
    (prepare_data t env ok).2.2.hostFreeCount = env.hostFreeCount + 1 ∧
    (prepare_data t env ok).2.2.readLog =
      env.readLog ++ [(t.length_in_byte, t.m_file_offset)] ∧
    (prepare_data t env ok).2.2.copyLog =
      env.copyLog ++ [t.length_in_byte] ∧
    (prepare_data t env ok).2.1.m_data = some (Ptr.dev env.nextPtr) := by
  unfold prepare_data
  simp [hd, hst, hf, hmm, hdev, Env.allocate, Env.newFloatArray,
    Env.read_data, Env.cudaMemcpy, Env.deleteArray]

/-- C8 witness: the staging path evaluated on the concrete tensor. -/
theorem c8_staging_buffer_witness :
    (prepare_data tNoMmapGpu Env.init true).2.2.hostAllocSizes =
      Env.init.hostAllocSizes ++ [4 * tNoMmapGpu.length_in_byte] ∧
    (prepare_data tNoMmapGpu Env.init true).2.2.hostAllocCount =
      Env.init.hostAllocCount + 1 ∧
    (prepare_data tNoMmapGpu Env.init true).2.2.hostFreeCount =
      Env.init.hostFreeCount + 1 ∧
    (prepare_data tNoMmapGpu Env.init true).2.2.readLog =
      Env.init.readLog ++ [(tNoMmapGpu.length_in_byte,
        tNoMmapGpu.m_file_offset)] ∧
    (prepare_data tNoMmapGpu Env.init true).2.2.copyLog =
      Env.init.copyLog ++ [tNoMmapGpu.length_in_byte] ∧
    (prepare_data tNoMmapGpu Env.init true).2.1.m_data =
      some (Ptr.dev Env.init.nextPtr) := by
  exact c8_staging_buffer tNoMmapGpu Env.init true ⟨false⟩ rfl rfl rfl rfl rfl

/-- C10: binding a null external pointer always succeeds and leaves the
tensor with data null, state `Own`, shared; afterwards every sequence of
materialize()/release() calls leaves both the tensor and the environment
completely unchanged (so no allocation ever happens and data stays null),
and any materialize() still returns `Own`. -/
theorem c10_null_bind_permanent (t : Tensor) (s : Nat) (env : Env)
    (ops : List TensorOp) (ok : Bool) :
    set_shared_memory t none s = some (boundNull t) ∧
    (boundNull t).m_data = none ∧
    (boundNull t).m_state = TensorState.Own ∧
    (boundNull t).m_shared = true ∧
    runOps ops (boundNull t, env) = (boundNull t, env) ∧
    (prepare_data (boundNull t) env ok).1 = TensorState.Own ∧
    (prepare_data (boundNull t) env ok).2.1.m_data = none ∧
    (prepare_data (boundNull t) env ok).2.2 = env := by
  have hnoop := prepare_data_noop (boundNull t) env ok (by simp [boundNull])
  refine ⟨?_, rfl, rfl, rfl,
    runOps_fixed ops (boundNull t) env rfl rfl, ?_, ?_, ?_⟩
  · simp [set_shared_memory, boundNull]
  · rw [hnoop]
  · rw [hnoop]
    rfl
  · rw [hnoop]
